import Mathlib

/-!
Verification development for the RNA-seq normalization and filtering engine in
`src/main/como/rnaseq.py` (COMO).

Modelling conventions:

* IEEE-754 double values are idealized as an extended-real type `EF` with
  constructors `fin : ℝ → EF`, `pinf`, `ninf`, `nan`.  Arithmetic, `log`,
  `log2`, `exp` and comparisons follow NumPy float semantics (`log 0 = -inf`,
  `log x = nan` for `x < 0`, `0/0 = nan`, any comparison with `nan` is false,
  `nan == nan` is false, `mean [] = 0/0 = nan`).  Rounding error is not
  modelled: finite values are exact reals.
* A pandas `DataFrame` is modelled positionally as its list of named columns,
  `List (String × List EF)`; rows (genes) are positions inside each column.
  All matrices in the pipeline are rectangular; `matRows`/`matFromRows` convert
  between the column view and the row view using a default element that is
  never reached on rectangular data.
* The Gaussian kernel-density fit (`sklearn.neighbors.KernelDensity`) and the
  peak finder (`scipy.signal.find_peaks`) are external library calls; they are
  modelled as an abstract `KDEPipeline` parameter whose `score` field maps the
  log2 data and evaluation grid to the density values and whose `find_peaks`
  field maps the density and the `(height, distance)` parameters to the list
  of peak indices.  All claims about `_zfpkm_calculation` are conditional on
  the outcome of this pipeline, exactly as the spec states them.
* File system and plotting side effects (`to_csv`, `zfpkm_plot`, `logger`) are
  dropped: they do not influence the data flow being verified.
* Python exceptions are modelled with `Except String`.
-/

/-- Extended float model: an IEEE-754 double idealized over the reals, plus the
special values `+inf`, `-inf` and `nan`. -/
inductive EF where
  | fin (x : ℝ)
  | pinf
  | ninf
  | nan
deriving Inhabited

noncomputable section

/-- Float addition with IEEE special-value rules (`inf + -inf = nan`). -/
def EF.add : EF → EF → EF
  | .nan, _ => .nan
  | _, .nan => .nan
  | .pinf, .ninf => .nan
  | .pinf, _ => .pinf
  | .ninf, .pinf => .nan
  | .ninf, _ => .ninf
  | .fin _, .pinf => .pinf
  | .fin _, .ninf => .ninf
  | .fin a, .fin b => .fin (a + b)

/-- Float subtraction with IEEE special-value rules (`inf - inf = nan`). -/
def EF.sub : EF → EF → EF
  | .nan, _ => .nan
  | _, .nan => .nan
  | .pinf, .pinf => .nan
  | .pinf, _ => .pinf
  | .ninf, .ninf => .nan
  | .ninf, _ => .ninf
  | .fin _, .pinf => .ninf
  | .fin _, .ninf => .pinf
  | .fin a, .fin b => .fin (a - b)

/-- Float multiplication with IEEE special-value rules (`inf * 0 = nan`). -/
def EF.mul : EF → EF → EF
  | .nan, _ => .nan
  | _, .nan => .nan
  | .pinf, .pinf => .pinf
  | .pinf, .ninf => .ninf
  | .ninf, .pinf => .ninf
  | .ninf, .ninf => .pinf
  | .pinf, .fin b => if b = 0 then .nan else if 0 < b then .pinf else .ninf
  | .ninf, .fin b => if b = 0 then .nan else if 0 < b then .ninf else .pinf
  | .fin a, .pinf => if a = 0 then .nan else if 0 < a then .pinf else .ninf
  | .fin a, .ninf => if a = 0 then .nan else if 0 < a then .ninf else .pinf
  | .fin a, .fin b => .fin (a * b)

/-- Float division with IEEE special-value rules (`0/0 = nan`, `x/0 = ±inf`,
`±inf / ±inf = nan`, `finite / ±inf = 0`; negative zero is not modelled). -/
def EF.div : EF → EF → EF
  | .nan, _ => .nan
  | _, .nan => .nan
  | .pinf, .pinf => .nan
  | .pinf, .ninf => .nan
  | .ninf, .pinf => .nan
  | .ninf, .ninf => .nan
  | .pinf, .fin b => if b < 0 then .ninf else .pinf
  | .ninf, .fin b => if b < 0 then .pinf else .ninf
  | .fin _, .pinf => .fin 0
  | .fin _, .ninf => .fin 0
  | .fin a, .fin b =>
      if b = 0 then (if a = 0 then .nan else if a < 0 then .ninf else .pinf)
      else .fin (a / b)

/-- Float comparison `<=`; every comparison involving `nan` is false. -/
def EF.leB : EF → EF → Bool
  | .nan, _ => false
  | _, .nan => false
  | .ninf, _ => true
  | _, .pinf => true
  | .pinf, _ => false
  | .fin _, .ninf => false
  | .fin a, .fin b => decide (a ≤ b)

/-- Float comparison `<`; every comparison involving `nan` is false. -/
def EF.ltB : EF → EF → Bool
  | .nan, _ => false
  | _, .nan => false
  | .pinf, _ => false
  | .ninf, .ninf => false
  | .ninf, _ => true
  | .fin _, .pinf => true
  | .fin _, .ninf => false
  | .fin a, .fin b => decide (a < b)

/-- Float equality `==`; `nan == nan` is false. -/
def EF.eqB : EF → EF → Bool
  | .nan, _ => false
  | _, .nan => false
  | .pinf, .pinf => true
  | .ninf, .ninf => true
  | .pinf, _ => false
  | .ninf, _ => false
  | .fin _, .pinf => false
  | .fin _, .ninf => false
  | .fin a, .fin b => decide (a = b)

/-- Whether a float is `nan` (the `pd.isna` / `np.isnan` test). -/
def EF.isNan : EF → Bool
  | .nan => true
  | _ => false

/-- NumPy natural logarithm: `log 0 = -inf`, `log x = nan` for negative `x`. -/
def EF.log : EF → EF
  | .nan => .nan
  | .pinf => .pinf
  | .ninf => .nan
  | .fin a => if 0 < a then .fin (Real.log a) else if a = 0 then .ninf else .nan

/-- NumPy base-2 logarithm, same special-value rules as `EF.log`. -/
def EF.log2 : EF → EF
  | .nan => .nan
  | .pinf => .pinf
  | .ninf => .nan
  | .fin a => if 0 < a then .fin (Real.logb 2 a) else if a = 0 then .ninf else .nan

/-- NumPy exponential: `exp (-inf) = 0`, `exp inf = inf`. -/
def EF.exp : EF → EF
  | .nan => .nan
  | .pinf => .pinf
  | .ninf => .fin 0
  | .fin a => .fin (Real.exp a)

/-- NumPy square root: `sqrt x = nan` for negative `x`. -/
def EF.sqrtE : EF → EF
  | .nan => .nan
  | .pinf => .pinf
  | .ninf => .nan
  | .fin a => if 0 ≤ a then .fin (Real.sqrt a) else .nan

/-- The largest finite IEEE double, `(2^53 - 1) * 2^971`; `np.nan_to_num`
replaces `±inf` by `±` this value. -/
def float64Max : ℝ := ((2 : ℝ) ^ 53 - 1) * 2 ^ 971

/-- The effect of `np.nan_to_num(col, nan=0)`: `nan` becomes `0`, `±inf`
becomes the largest finite double of that sign, finite values are unchanged. -/
def EF.nanToNum0 : EF → EF
  | .nan => .fin 0
  | .pinf => .fin float64Max
  | .ninf => .fin (-float64Max)
  | .fin a => .fin a

/-- Python `max(a, b)` on floats: returns `b` when `b > a`, else `a` (so
`max(a, nan) = a`, since any comparison with `nan` is false). -/
def EF.pymax (a b : EF) : EF := if EF.ltB a b then b else a

/-- NumPy sum of a float array (`np.sum` / `DataFrame.sum`), starting at 0. -/
def efSum (l : List EF) : EF := l.foldl EF.add (.fin 0)

/-- NumPy `arr.max()` over a nonempty array: `nan` propagates.  On an empty
array NumPy raises; the `[]` case (returning `nan`) is never reached by the
source, which only calls it on nonempty data. -/
def npMax : List EF → EF
  | [] => .nan
  | x :: xs => xs.foldl (fun a b => if a.isNan || b.isNan then .nan else if EF.ltB a b then b else a) x

/-- NumPy `arr.min()` over a nonempty array, `nan`-propagating, as `npMax`. -/
def npMin : List EF → EF
  | [] => .nan
  | x :: xs => xs.foldl (fun a b => if a.isNan || b.isNan then .nan else if EF.ltB b a then b else a) x

/-- NumPy `np.argmax`: index of the first maximal element (`0` on empty input,
which the source never produces since it indexes a nonempty peak list). -/
def npArgmax (l : List EF) : ℕ :=
  (l.foldl
    (fun (acc : ℕ × ℕ × Option EF) x =>
      match acc with
      | (_, i, none) => (i, i + 1, some x)
      | (best, i, some bv) => if EF.ltB bv x then (i, i + 1, some x) else (best, i + 1, some bv))
    (0, 0, none)).1

/-- NumPy `arr.mean()`: sum divided by length; on an empty array this is
`0 / 0 = nan` (matching the NumPy "mean of empty slice" result). -/
def npMean (l : List EF) : EF := EF.div (efSum l) (.fin l.length)

end

/-- Python `round` (banker's rounding, round-half-to-even) on an exact
rational, as applied to `ratio * sample_count` in the filter functions. -/
def pyRound (q : ℚ) : ℤ :=
  let f : ℤ := ⌊q⌋
  let r : ℚ := q - f
  if r < 1 / 2 then f
  else if 1 / 2 < r then f + 1
  else if f % 2 = 0 then f else f + 1

/-- Python truthiness of an (integer) Entrez gene id: nonzero is truthy.  Used
to model `if keep` at rnaseq.py line 615, where `keep` is a gene id, not a
boolean. -/
def pyTruthy (z : ℤ) : Bool := z ≠ 0

/-- Keep the elements of `genes` whose positional mate in `mask` is true:
the Python idiom `[gene for gene, keep in zip(genes, mask) if keep]`.
`zip` truncates to the shorter list, and so does `zipFilter`. -/
def zipFilter (genes : List ℤ) (mask : List Bool) : List ℤ :=
  ((genes.zip mask).filter (fun p => p.2)).map (fun p => p.1)

/-- Embeds `k_over_a` (rnaseq.py lines 139-152): the returned predicate is
true on a row iff at least `k` of its values are `>= a`
(`np.sum(row >= a) >= k`). -/
def k_over_a {α : Type} [LE α] [DecidableRel (fun (x y : α) => x ≤ y)]
    (k : ℤ) (a : α) : List α → Bool :=
  fun row => decide (k ≤ (row.countP (fun x => decide (a ≤ x)) : ℤ))

/-- The runtime type of the `data` argument of `genefilter`: an exact
`pandas.DataFrame`, an exact `numpy.ndarray`, or anything else.  The payload
is the matrix as its list of rows, since `genefilter` is row-oriented. -/
inductive GFData (α : Type) where
  | dataframe (rows : List (List α))
  | ndarray (rows : List (List α))
  | other

/-- Embeds `genefilter` (rnaseq.py lines 155-170).  `match type(data)` uses
value patterns: `case pd.DataFrame` compares `type(data) == pd.DataFrame` and
matches a real DataFrame, but `case npt.NDArray` compares `type(data)` with
`npt.NDArray`, which is a `numpy.ndarray[Any, dtype[...]]` generic alias, not
the `numpy.ndarray` type object; the comparison is always false, so a NumPy
array falls through to `case _` and raises the `ValueError`, like every other
non-DataFrame input.  On a DataFrame it applies the predicate to every row
(`data.apply(filter_func, axis=1).values`). -/
def genefilter {α : Type} (data : GFData α) (filter_func : List α → Bool) :
    Except String (List Bool) :=
  match data with
  | .dataframe rows => .ok (rows.map filter_func)
  | .ndarray _ => .error "Unsupported data type. Must be a Pandas DataFrame or a NumPy array."
  | .other => .error "Unsupported data type. Must be a Pandas DataFrame or a NumPy array."

/-- Embeds `pd.Series(values).value_counts()` on integer data: the distinct
values with their multiplicities, sorted by count descending.  Pandas leaves
the relative order of tied counts unspecified (unstable sort); this model uses
first-appearance order for ties, and every theorem below about it uses inputs
whose counts are pairwise distinct, so the tie-break never matters. -/
def value_counts (l : List ℤ) : List (ℤ × ℕ) :=
  let uniques := l.foldl (fun acc x => if x ∈ acc then acc else acc ++ [x]) []
  let pairs := uniques.map (fun v => (v, l.count v))
  pairs.foldr
    (fun x sorted =>
      let rec ins (x : ℤ × ℕ) : List (ℤ × ℕ) → List (ℤ × ℕ)
        | [] => [x]
        | y :: ys => if y.2 ≤ x.2 then x :: y :: ys else y :: ins x ys
      ins x sorted)
    []

/-- One row of the final boolean matrix of `save_rnaseq_tests`: its positional
index label, and the `entrez_gene_id`, `expressed` and `high` cells.  Cells
are `Option ℤ`, `none` standing for the `NaN` that `.loc`-enlargement writes
into the columns it does not set. -/
structure BooleanRow where
  label : ℤ
  entrez_gene_id : Option ℤ
  expressed : Option ℤ
  high : Option ℤ
deriving DecidableEq, Repr

/-- Embeds `boolean_matrix.loc[label, col] = 1` on a DataFrame whose index is
the default `RangeIndex`: if a row with that label exists it is updated,
otherwise a new row with that label is appended and the cells of the columns
not being set become `NaN` (`none`). -/
def locSet (bm : List BooleanRow) (label : ℤ) (isExpressedCol : Bool) (v : ℤ) :
    List BooleanRow :=
  if bm.any (fun r => r.label = label) then
    bm.map (fun r =>
      if r.label = label then
        if isExpressedCol then { r with expressed := some v } else { r with high := some v }
      else r)
  else
    bm ++ [{ label := label
             entrez_gene_id := none
             expressed := if isExpressedCol then some v else none
             high := if isExpressedCol then none else some v }]

/-- Embeds the aggregation tail of `save_rnaseq_tests` (rnaseq.py lines
750-776), which runs after `filter_counts`.  Input: per study the final
`entrez_gene_ids` and `high_confidence_entrez_gene_ids` lists (in the
dictionary's iteration order), the original gene universe `entrez_gene_ids`,
and the two batch ratios.  Faithful pandas semantics that matter here:

* `expression_df` and `top_df` are built from `value_counts` output with a
  fresh `RangeIndex`; filtering by `prop >= ratio` keeps the original
  positional labels of the surviving rows.
* `gene in expression_df["entrez_gene_id"]` is `Series.__contains__`, which
  tests membership in the series *index* (the surviving positional labels),
  not in the values.
* `boolean_matrix.loc[gene, col] = 1` addresses the row whose index *label*
  equals the gene id (appending a new row when there is none), not the row
  whose `entrez_gene_id` cell equals it.

Returns the boolean matrix together with `expressed_count` and
`high_confidence_count` (lines 775-776). -/
def save_rnaseq_tests_boolean_matrix
    (metrics : List (List ℤ × List ℤ)) (entrez_gene_ids : List ℤ)
    (batch_ratio high_batch_ratio : ℚ) : List BooleanRow × ℕ × ℕ :=
  let expressed_genes : List ℤ := metrics.foldr (fun m acc => m.1 ++ acc) []
  let top_genes : List ℤ := metrics.foldr (fun m acc => m.2 ++ acc) []
  let expression_frequency := value_counts expressed_genes
  let expression_df :=
    (expression_frequency.enum).map
      (fun p => (((p.1 : ℤ)), p.2.1, ((p.2.2 : ℚ) / (metrics.length : ℚ))))
  let expression_df := expression_df.filter (fun r => batch_ratio ≤ r.2.2)
  let top_frequency := value_counts top_genes
  let top_df :=
    (top_frequency.enum).map
      (fun p => (((p.1 : ℤ)), p.2.1, ((p.2.2 : ℚ) / (metrics.length : ℚ))))
  let top_df := top_df.filter (fun r => high_batch_ratio ≤ r.2.2)
  let boolean_matrix : List BooleanRow :=
    (entrez_gene_ids.enum).map
      (fun p => { label := (p.1 : ℤ), entrez_gene_id := some p.2
                  expressed := some 0, high := some 0 })
  let boolean_matrix :=
    entrez_gene_ids.foldl
      (fun bm gene =>
        let bm := if expression_df.any (fun r => r.1 = gene) then locSet bm gene true 1 else bm
        if top_df.any (fun r => r.1 = gene) then locSet bm gene false 1 else bm)
      boolean_matrix
  let expressed_count := (boolean_matrix.filter (fun r => r.expressed = some 1)).length
  let high_confidence_count := (boolean_matrix.filter (fun r => r.high = some 1)).length
  (boolean_matrix, expressed_count, high_confidence_count)

/-- RNA sequencing layout method (rnaseq.py `LayoutMethod`). -/
inductive LayoutMethod where
  | paired_end
  | single_end
deriving DecidableEq

/-- The per-study record (rnaseq.py `_StudyMetrics`).  Matrices are stored as
their lists of named columns; `entrez_gene_ids` and `gene_sizes` are aligned
positionally with the rows of `count_matrix`. -/
structure StudyMetrics where
  study : String
  num_samples : ℕ
  count_matrix : List (String × List EF)
  fragment_lengths : List EF
  sample_names : List String
  layout : List LayoutMethod
  entrez_gene_ids : List ℤ
  gene_sizes : List EF
  normalization_matrix : List (String × List EF) := []
  z_score_matrix : List (String × List EF) := []
  high_confidence_entrez_gene_ids : List ℤ := []

/-- The metrics collection (rnaseq.py `NamedMetrics = dict[str, _StudyMetrics]`),
as an insertion-ordered association list. -/
abbrev NamedMetrics := List (String × StudyMetrics)

/-- The filtering options tuple (rnaseq.py `_FilteringOptions`).  `cut_off` is
kept as an exact rational; the CPM path's `"default"` sentinel is never
reached by any theorem below (see `cpm_filter`). -/
structure FilteringOptions where
  replicate_ratio : ℚ
  batch_ratio : ℚ
  cut_off : ℚ
  high_replicate_ratio : ℚ
  high_batch_ratio : ℚ

/-- Number of rows of a column-view matrix (all columns have equal length on
the rectangular data the pipeline produces). -/
def matNumRows (cols : List (String × List EF)) : ℕ :=
  ((cols.head?).map (fun c => c.2.length)).getD 0

noncomputable section

/-- Row view of a column-view matrix.  The default element is never reached on
rectangular data. -/
def matRows (cols : List (String × List EF)) : List (List EF) :=
  (List.range (matNumRows cols)).map (fun i => cols.map (fun c => c.2.getD i EF.nan))

/-- Rebuild a named column view from a row view (used for the z-score matrix,
whose columns are renamed to the sample names). -/
def matFromRows (names : List String) (rows : List (List EF)) :
    List (String × List EF) :=
  names.enum.map (fun p => (p.2, rows.map (fun r => r.getD p.1 EF.nan)))

/-- Keep the elements whose positional mate in `mask` is true (boolean-mask
row selection, `df.iloc[mask, :]`); truncates like `zip`. -/
def maskFilter {α : Type} (xs : List α) (mask : List Bool) : List α :=
  ((xs.zip mask).filter (fun p => p.2)).map (fun p => p.1)

/-- Per-row sums of a column-view matrix (`DataFrame.sum(axis=1)`). -/
def rowSums (cols : List (String × List EF)) : List EF :=
  (matRows cols).map efSum

/-- Embeds the per-column body of `calculate_tpm` (rnaseq.py lines 287-292):
`values = col + 1`, `rate = log(values) - log(gene_sizes)`,
`denominator = log(sum(exp(rate)))`, `tpm = exp(rate - denominator + log(1e6))`. -/
def tpm_column (col : List EF) (gene_sizes : List EF) : List EF :=
  let values := col.map (fun c => EF.add c (EF.fin 1))
  let rate := List.zipWith (fun v g => EF.sub (EF.log v) (EF.log g)) values gene_sizes
  let denominator := EF.log (efSum (rate.map EF.exp))
  rate.map (fun r => EF.exp (EF.add (EF.sub r denominator) (EF.log (EF.fin 1000000))))

/-- Embeds `calculate_tpm` (rnaseq.py lines 279-295): per study, the TPM of
every count column is stored as the study's `normalization_matrix`. -/
def calculate_tpm (metrics : NamedMetrics) : NamedMetrics :=
  metrics.map (fun p =>
    (p.1, { p.2 with
            normalization_matrix :=
              p.2.count_matrix.map (fun c => (c.1, tpm_column c.2 p.2.gene_sizes)) }))

/-- Embeds the per-sample body of `calculate_fpkm` (rnaseq.py lines 302-324):
paired-end samples get FPKM
(`((count+1) * 1e9) / (max(1e-9, size - (mfl+1)) * sum(counts))`), single-end
samples get RPKM (`exp(log(count+1) - log(size) - log(sum(counts)) + log(1e9))`). -/
def fpkm_sample_column (metric : StudyMetrics) (sample : ℕ) : List EF :=
  let layout := metric.layout.getD sample LayoutMethod.paired_end
  let count_col := ((metric.count_matrix.getD sample ("", [])).2)
  let gene_size := metric.gene_sizes
  match layout with
  | .paired_end =>
      let mean_fragment_lengths := metric.fragment_lengths.getD sample EF.nan
      let effective_length :=
        gene_size.map (fun size =>
          EF.pymax (EF.fin ((1 : ℝ) / 10 ^ 9))
            (EF.sub size (EF.add mean_fragment_lengths (EF.fin 1))))
      let n := efSum count_col
      List.zipWith
        (fun c e => EF.div (EF.mul (EF.add c (EF.fin 1)) (EF.fin ((10 : ℝ) ^ 9)))
          (EF.mul e n))
        count_col effective_length
  | .single_end =>
      let rate :=
        List.zipWith (fun c g => EF.sub (EF.log (EF.add c (EF.fin 1))) (EF.log g))
          count_col gene_size
      rate.map (fun r =>
        EF.exp (EF.add (EF.sub r (EF.log (efSum count_col))) (EF.log (EF.fin ((10 : ℝ) ^ 9)))))

/-- Embeds `calculate_fpkm` (rnaseq.py lines 298-331).  The per-sample arrays
are appended as rows and transposed (line 326), so in the column view the
resulting matrix is exactly the list of per-sample arrays.  Line 327,
`fpkm_matrix = fpkm_matrix[~pd.isna(fpkm_matrix)]`, indexes with a boolean
DataFrame of the same shape: pandas keeps the entries where the mask is true
and writes NaN where it is false, so NaN cells remain NaN, the shape is
unchanged, and no row is dropped.  Line 329 renames the columns to the count
matrix's column names. -/
def calculate_fpkm (metrics : NamedMetrics) : NamedMetrics :=
  metrics.map (fun p =>
    let metric := p.2
    let matrix_values := (List.range metric.num_samples).map (fpkm_sample_column metric)
    let fpkm_matrix := matrix_values
    let fpkm_matrix :=
      fpkm_matrix.map (fun c => c.map (fun x => if x.isNan then EF.nan else x))
    let named :=
      List.zipWith (fun (nc : String × List EF) c => (nc.1, c)) metric.count_matrix fpkm_matrix
    (p.1, { metric with normalization_matrix := named }))

/-- Embeds `sklearn.preprocessing.scale(row)` for one row (axis=1 in
`calculate_z_score`): center to the mean, divide by the population standard
deviation, with a zero standard deviation replaced by 1
(sklearn's `_handle_zeros_in_scale`). -/
def scale_row (row : List EF) : List EF :=
  let m := npMean row
  let centered := row.map (fun x => EF.sub x m)
  let std := EF.sqrtE (npMean (centered.map (fun x => EF.mul x x)))
  let std := if EF.eqB std (EF.fin 0) then EF.fin 1 else std
  centered.map (fun x => EF.div x std)

/-- Embeds `calculate_z_score` (rnaseq.py lines 515-523):
`z = scale(log(normalization_matrix), axis=1)`, columns renamed to the sample
names. -/
def calculate_z_score (metrics : NamedMetrics) : NamedMetrics :=
  metrics.map (fun p =>
    let log_matrix := p.2.normalization_matrix.map (fun c => (c.1, c.2.map EF.log))
    let z_rows := (matRows log_matrix).map scale_row
    (p.1, { p.2 with z_score_matrix := matFromRows p.2.sample_names z_rows }))

/-- Insert into an ascending-sorted float list (comparisons with `nan` are
false, but quantile inputs containing `nan` are short-circuited before
sorting). -/
def insertAsc (x : EF) : List EF → List EF
  | [] => [x]
  | y :: ys => if EF.leB x y then x :: y :: ys else y :: insertAsc x ys

/-- Ascending sort of a float list. -/
def sortAsc (l : List EF) : List EF := l.foldr insertAsc []

/-- Embeds `np.quantile(col, q)` with the default linear interpolation:
sort ascending, `h = q*(n-1)`, result `v[⌊h⌋] + (h-⌊h⌋)*(v[⌊h⌋+1] - v[⌊h⌋])`.
NumPy returns `nan` when the data contains `nan` and raises on empty input. -/
def npQuantile (col : List EF) (q : ℚ) : Except String EF :=
  if col.length = 0 then .error "IndexError: cannot compute quantile of empty array"
  else if col.any EF.isNan then .ok EF.nan
  else
    let s := sortAsc col
    let h : ℚ := q * ((col.length : ℚ) - 1)
    let i : ℕ := (⌊h⌋).toNat
    let frac : ℚ := h - (⌊h⌋ : ℚ)
    let lo := s.getD i EF.nan
    let hi := s.getD (min (i + 1) (col.length - 1)) EF.nan
    .ok (EF.add lo (EF.mul (EF.fin ((frac : ℚ) : ℝ)) (EF.sub hi lo)))

end

/-- The external density-estimation machinery used by `_zfpkm_calculation`:
`score` models fitting `sklearn.neighbors.KernelDensity` on the log2 data and
evaluating `exp(score_samples(x_range))`; `find_peaks` models
`scipy.signal.find_peaks(density, height, distance)` returning peak indices
(always valid indices into the density array). -/
structure KDEPipeline where
  score : List EF → List EF → List EF
  find_peaks : List EF → ℚ → ℚ → List ℕ

/-- The per-column log2 transform of `_zfpkm_calculation` (rnaseq.py lines
378-379): `log2(col + 1)` with `nan` coerced by `np.nan_to_num(·, nan=0)`. -/
noncomputable def colLog2 (col : List EF) : List EF :=
  (col.map (fun v => EF.log2 (EF.add v (EF.fin 1)))).map EF.nanToNum0

/-- NumPy `np.linspace(a, b, n)`: `n` evenly spaced points from `a` to `b`. -/
noncomputable def efLinspace (a b : EF) (n : ℕ) : List EF :=
  (List.range n).map (fun (i : ℕ) =>
    EF.add a (EF.div (EF.mul (EF.fin ((i : ℕ) : ℝ)) (EF.sub b a)) (EF.fin ((n : ℝ) - 1))))

/-- The evaluation grid of `_zfpkm_calculation` (rnaseq.py line 383):
1000 points spanning `[min(col_log2), max(col_log2)]`. -/
noncomputable def xRangeOf (col : List EF) : List EF :=
  efLinspace (npMin (colLog2 col)) (npMax (colLog2 col)) 1000

/-- The fitted density of `_zfpkm_calculation` (rnaseq.py line 384), via the
abstract KDE pipeline. -/
noncomputable def densityOf (kp : KDEPipeline) (col : List EF) : List EF :=
  kp.score (colLog2 col) (xRangeOf col)

/-- The detected peak indices of `_zfpkm_calculation` (rnaseq.py line 385). -/
noncomputable def peaksOf (kp : KDEPipeline) (peak_parameters : ℚ × ℚ) (col : List EF) :
    List ℕ :=
  kp.find_peaks (densityOf kp col) peak_parameters.1 peak_parameters.2

/-- The per-sample result of `_zfpkm_calculation` (rnaseq.py `_ZFPKMResult`);
`name` is the name the zfpkm series inherits from its input column. -/
structure ZFPKMResult where
  name : String
  zfpkm : List EF
  density_x : List EF
  density_y : List EF
  mu : EF
  std_dev : EF
  max_fpkm : EF

/-- Embeds `_zfpkm_calculation` (rnaseq.py lines 334-399).  The source sets
`mu = 0; max_fpkm = 0; stddev = 1` and overwrites them when `len(peaks) != 0`,
which is the if/else below.  In the peak branch: `mu` is the largest peak
position, `max_fpkm` the density at that peak,
`u = mean(col_log2[col_log2 > mu])` (the NumPy mean of an empty selection is
`0/0 = nan`), and `stddev = (u - mu) * sqrt(pi/2)`.  Finally
`zfpkm = (col_log2 - mu) / stddev`.  The function is total: every column
yields a result. -/
noncomputable def zfpkm_calculation (kp : KDEPipeline) (peak_parameters : ℚ × ℚ)
    (col : String × List EF) : ZFPKMResult :=
  let col_log2 := colLog2 col.2
  let x_range := xRangeOf col.2
  let density := densityOf kp col.2
  let peaks := peaksOf kp peak_parameters col.2
  let peak_positions := peaks.map (fun i => x_range.getD i EF.nan)
  let mfs : EF × EF × EF :=
    if peaks.length ≠ 0 then
      let mu := npMax peak_positions
      let max_fpkm := density.getD (peaks.getD (npArgmax peak_positions) 0) EF.nan
      let u := npMean (col_log2.filter (fun x => EF.ltB mu x))
      let stddev := EF.mul (EF.sub u mu) (EF.sqrtE (EF.div (EF.fin Real.pi) (EF.fin 2)))
      (mu, max_fpkm, stddev)
    else (EF.fin 0, EF.fin 0, EF.fin 1)
  let zfpkm := col_log2.map (fun v => EF.div (EF.sub v mfs.1) mfs.2.2)
  { name := col.1, zfpkm := zfpkm, density_x := x_range, density_y := density,
    mu := mfs.1, std_dev := mfs.2.2, max_fpkm := mfs.2.1 }

/-- Column assignment `zfpkm_df[key] = series`: replace the column with that
name, or append it when absent (never absent in `zfpkm_transform`, whose keys
come from the frame's own columns). -/
noncomputable def dfSetCol (df : List (String × List EF)) (key : String) (vals : List EF) :
    List (String × List EF) :=
  if df.any (fun c => c.1 = key) then
    df.map (fun c => if c.1 = key then (key, vals) else c)
  else df ++ [(key, vals)]

/-- Dictionary upsert `results[key] = result`. -/
noncomputable def upsertResult (rs : List (String × ZFPKMResult)) (key : String)
    (r : ZFPKMResult) : List (String × ZFPKMResult) :=
  if rs.any (fun c => c.1 = key) then
    rs.map (fun c => if c.1 = key then (key, r) else c)
  else rs ++ [(key, r)]

/-- The collection loop of `zfpkm_transform` (rnaseq.py lines 436-458):
`pool.imap` yields one result per column, in order; each is stored in the
results dict and its zfpkm written into the output frame by column name.  The
progress check `if i != 0 and (i % update_per_step == 0 or i == total)` only
logs, but evaluating `i % update_per_step` with `update_per_step == 0` raises
`ZeroDivisionError` (Python `and` short-circuits, so `i == 0` never reaches
the modulo). -/
noncomputable def ztExec (kp : KDEPipeline) (peak_parameters : ℚ × ℚ) (upd : ℤ) :
    ℕ → List (String × List EF) → List (String × ZFPKMResult) →
    List (String × List EF) →
    Except String (List (String × ZFPKMResult) × List (String × List EF))
  | _, [], results, zfpkm_df => .ok (results, zfpkm_df)
  | i, col :: rest, results, zfpkm_df =>
      let result := zfpkm_calculation kp peak_parameters col
      let key := result.name
      let results := upsertResult results key result
      let zfpkm_df := dfSetCol zfpkm_df key result.zfpkm
      if i ≠ 0 ∧ upd = 0 then .error "ZeroDivisionError: integer modulo by zero"
      else ztExec kp peak_parameters upd (i + 1) rest results zfpkm_df

/-- Embeds `zfpkm_transform` (rnaseq.py lines 402-459).  An
`update_every_percent` greater than 1 is divided by 100 (lines 409-414);
`update_per_step = int(np.ceil(total * p))`; the zeros-initialized output
frame has the input's columns; worker-pool chunking and timing only affect
logging and are dropped.  The kernel built from `bandwidth` (line 426) is
absorbed into the abstract `KDEPipeline`. -/
noncomputable def zfpkm_transform (kp : KDEPipeline) (fpkm_df : List (String × List EF))
    (peak_parameters : ℚ × ℚ) (update_every_percent : ℚ) :
    Except String (List (String × ZFPKMResult) × List (String × List EF)) :=
  let p := if 1 < update_every_percent then update_every_percent / 100 else update_every_percent
  let total := fpkm_df.length
  let update_per_step : ℤ := ⌈(total : ℚ) * p⌉
  let zfpkm_df := fpkm_df.map (fun c => (c.1, c.2.map (fun _ => EF.fin 0)))
  ztExec kp peak_parameters update_per_step 0 fpkm_df [] zfpkm_df

/-- Float order on `EF` (`a ≤ b` iff the float comparison `EF.leB` is true),
used to instantiate the polymorphic `k_over_a` at float rows. -/
instance : LE EF := ⟨fun a b => EF.leB a b = true⟩

noncomputable instance : DecidableRel (fun (a b : EF) => a ≤ b) :=
  fun a b => decidable_of_iff (EF.leB a b = true) Iff.rfl

/-- Generic row view of a column-view matrix with default element `d` (never
reached on rectangular data). -/
def dfRows {α : Type} (d : α) (cols : List (String × List α)) : List (List α) :=
  (List.range (((cols.head?).map (fun c => c.2.length)).getD 0)).map
    (fun i => cols.map (fun c => c.2.getD i d))

/-- Embeds `cpm_filter` (rnaseq.py lines 526-572).  Per study: the source
computes `library_size = counts.sum(axis=1)` (per-row sums) with zeros
replaced by 1, builds a counts-per-million frame, writes it to disk, inserts
an `entrez_gene_ids` column at position 0 (line 554), computes
`min_samples`/`top_samples` into unused locals (noqa F841), and then loops
`for i in range(len(counts_per_million.columns))`.  The loop body (lines
565-570) evaluates `counts[:, i]` under both branches of its conditional;
`counts` is a DataFrame and a tuple key containing a slice is unhashable, so
pandas raises `TypeError` on the first iteration — the loop runs because the
insert guarantees at least one column.  The retained gene set is never
updated: the function either raises (any study present) or returns the
metrics unchanged (no studies).

The true pandas value of `(counts / library_size) * 1_000_000` is a widened
all-NaN frame (`library_size` is indexed by gene and aligns against the
sample-name columns — the source's own TODO at line 558 observes the extra
columns); since no entry of it is read before the raise, the model below
keeps the intended elementwise value and only relies on the column count,
which is at least 1 under either reading. -/
noncomputable def cpm_filter (metrics : NamedMetrics) (filtering_options : FilteringOptions) :
    Except String NamedMetrics := do
  let n_exp := filtering_options.replicate_ratio
  let n_top := filtering_options.high_replicate_ratio
  let _cut_off := filtering_options.cut_off
  metrics.mapM (fun p => do
    let metric := p.2
    let counts := metric.count_matrix
    let entrez_ids := metric.entrez_gene_ids
    let library_size :=
      (rowSums counts).map (fun s => if EF.eqB s (EF.fin 0) then EF.fin 1 else s)
    let counts_per_million :=
      counts.map (fun c =>
        (c.1, List.zipWith (fun x l => EF.mul (EF.div x l) (EF.fin 1000000)) c.2 library_size))
    let counts_per_million :=
      ("entrez_gene_ids", entrez_ids.map (fun z => EF.fin (z : ℝ))) :: counts_per_million
    let _min_samples := pyRound (n_exp * (counts.length : ℚ))
    let _top_samples := pyRound (n_top * (counts.length : ℚ))
    if counts_per_million.length ≠ 0 then
      Except.error "TypeError: unhashable type: slice"
    else pure (p.1, metric))

/-- Embeds `tpm_quantile_filter` (rnaseq.py lines 575-619).  Per study, after
`calculate_tpm`: positive-only masking (`tpm_matrix[tpm_matrix > 0]`, masked
cells become NaN), per-column `np.quantile` at `1 - cut_off/100`, binarized
comparison frame (`(tpm_matrix > quantile_cutoff).astype(int)`), then
`k_over_a(round(ratio * n_cols), 0.9)` row filters through `genefilter`.  The
"expressed" mask filters `entrez_gene_ids`, `gene_sizes`, `count_matrix` and
`normalization_matrix`; lines 614-615 then compute
`keep_top_genes = [g for g, keep in zip(entrez_ids, top_genes) if keep]` and
set `high_confidence_entrez_gene_ids =
[g for g, keep in zip(entrez_ids, keep_top_genes) if keep]` — note the second
`zip` pairs the original gene-id list with the *gene-id list*
`keep_top_genes`, testing Python truthiness of gene ids, not booleans.
Finally `calculate_z_score` runs over the collection. -/
noncomputable def tpm_quantile_filter (metrics : NamedMetrics)
    (filtering_options : FilteringOptions) : Except String NamedMetrics := do
  let n_exp := filtering_options.replicate_ratio
  let n_top := filtering_options.high_replicate_ratio
  let cut_off := filtering_options.cut_off
  let metrics := calculate_tpm metrics
  let metrics' ← metrics.mapM (fun p => do
    let metric := p.2
    let entrez_ids := metric.entrez_gene_ids
    let gene_size := metric.gene_sizes
    let tpm_matrix := metric.normalization_matrix
    let min_samples := pyRound (n_exp * (tpm_matrix.length : ℚ))
    let top_samples := pyRound (n_top * (tpm_matrix.length : ℚ))
    let tpm_quantile :=
      tpm_matrix.map (fun c =>
        (c.1, c.2.map (fun x => if EF.ltB (EF.fin 0) x then x else EF.nan)))
    let quantile_cutoff ← tpm_quantile.mapM (fun c => npQuantile c.2 (1 - cut_off / 100))
    let boolean_expression :=
      List.zipWith
        (fun (c : String × List EF) cut =>
          (c.1, c.2.map (fun x => if EF.ltB cut x then (1 : ℚ) else 0)))
        tpm_matrix quantile_cutoff
    let min_func := k_over_a min_samples ((9 : ℚ) / 10)
    let top_func := k_over_a top_samples ((9 : ℚ) / 10)
    let min_genes ← genefilter (GFData.dataframe (dfRows (0 : ℚ) boolean_expression)) min_func
    let top_genes ← genefilter (GFData.dataframe (dfRows (0 : ℚ) boolean_expression)) top_func
    let metric :=
      { metric with
        entrez_gene_ids := zipFilter entrez_ids min_genes
        gene_sizes := maskFilter gene_size min_genes
        count_matrix :=
          metric.count_matrix.map (fun (c : String × List EF) => (c.1, maskFilter c.2 min_genes))
        normalization_matrix :=
          metric.normalization_matrix.map
            (fun (c : String × List EF) => (c.1, maskFilter c.2 min_genes)) }
    let keep_top_genes := zipFilter entrez_ids top_genes
    let metric :=
      { metric with
        high_confidence_entrez_gene_ids :=
          ((entrez_ids.zip keep_top_genes).filter (fun (q : ℤ × ℤ) => pyTruthy q.2)).map
            (fun (q : ℤ × ℤ) => q.1) }
    pure (p.1, metric))
  pure (calculate_z_score metrics')

/-- Embeds `zfpkm_filter` (rnaseq.py lines 622-660).  Per study: take the
normalization matrix (or the count matrix when it is empty, the UMI path),
drop the rows whose sum is not positive (line 641), remember which cells were
exactly zero, run `zfpkm_transform`, force those cells to `-4` (line 645,
`zfpkm_df[minimums] = -4`), then apply `k_over_a(round(ratio * n_cols),
cut_off)` row filters through `genefilter`.  Line 652 filters
`entrez_gene_ids` by zipping the *unfiltered* gene-id list against the mask
computed on the row-reduced matrix (`zip` truncates); `count_matrix`,
`gene_sizes` and `normalization_matrix` are not touched.  Line 658 zips the
*already updated* `metric.entrez_gene_ids` against `top_genes`.  The
diagnostic plot call is I/O and is dropped. -/
noncomputable def zfpkm_filter (kp : KDEPipeline) (metrics : NamedMetrics)
    (filtering_options : FilteringOptions) (calcualte_fpkm : Bool) :
    Except String NamedMetrics := do
  let min_sample_expression := filtering_options.replicate_ratio
  let high_confidence_sample_expression := filtering_options.high_replicate_ratio
  let cut_off := filtering_options.cut_off
  let metrics := if calcualte_fpkm then calculate_fpkm metrics else metrics
  metrics.mapM (fun p => do
    let metric := p.2
    let matrix :=
      if metric.normalization_matrix.isEmpty then metric.count_matrix
      else metric.normalization_matrix
    let row_mask := (rowSums matrix).map (fun s => EF.ltB (EF.fin 0) s)
    let matrix := matrix.map (fun c => (c.1, maskFilter c.2 row_mask))
    let minimums := matrix.map (fun c => (c.1, c.2.map (fun x => EF.eqB x (EF.fin 0))))
    let (_results, zfpkm_df) ← zfpkm_transform kp matrix (2 / 100, 1) (1 / 10)
    let zfpkm_df :=
      List.zipWith
        (fun (mc : String × List Bool) (zc : String × List EF) =>
          (zc.1, List.zipWith (fun b z => if b then EF.fin (-4) else z) mc.2 zc.2))
        minimums zfpkm_df
    let min_samples := pyRound (min_sample_expression * (zfpkm_df.length : ℚ))
    let min_func := k_over_a min_samples (EF.fin ((cut_off : ℚ) : ℝ))
    let min_genes ← genefilter (GFData.dataframe (matRows zfpkm_df)) min_func
    let metric := { metric with entrez_gene_ids := zipFilter metric.entrez_gene_ids min_genes }
    let top_samples := pyRound (high_confidence_sample_expression * (zfpkm_df.length : ℚ))
    let top_func := k_over_a top_samples (EF.fin ((cut_off : ℚ) : ℝ))
    let top_genes ← genefilter (GFData.dataframe (matRows zfpkm_df)) top_func
    let metric :=
      { metric with
        high_confidence_entrez_gene_ids := zipFilter metric.entrez_gene_ids top_genes }
    pure (p.1, metric))

/-- RNA sequencing filtering technique (rnaseq.py `FilteringTechnique`). -/
inductive FilteringTechnique where
  | cpm
  | zfpkm
  | tpm
  | umi
deriving DecidableEq

/-- Embeds `filter_counts` (rnaseq.py lines 663-695): dispatch on the
technique; zFPKM computes FPKM first, UMI operates on raw counts. -/
noncomputable def filter_counts (kp : KDEPipeline) (metrics : NamedMetrics)
    (technique : FilteringTechnique) (filtering_options : FilteringOptions) :
    Except String NamedMetrics :=
  match technique with
  | .cpm => cpm_filter metrics filtering_options
  | .tpm => tpm_quantile_filter metrics filtering_options
  | .zfpkm => zfpkm_filter kp metrics filtering_options true
  | .umi => zfpkm_filter kp metrics filtering_options false

theorem EF.sub_nan_right (x : EF) : EF.sub x EF.nan = EF.nan := by cases x <;> rfl

theorem EF.sub_nan_left (x : EF) : EF.sub EF.nan x = EF.nan := by cases x <;> rfl

theorem EF.add_nan_left (x : EF) : EF.add EF.nan x = EF.nan := by cases x <;> rfl

theorem EF.mul_nan_left (x : EF) : EF.mul EF.nan x = EF.nan := by cases x <;> rfl

theorem EF.div_nan_right (x : EF) : EF.div x EF.nan = EF.nan := by cases x <;> rfl

theorem EF.ltB_nan_left (x : EF) : EF.ltB EF.nan x = false := by cases x <;> rfl

/-- Dividing the difference with zero by one is the identity on floats
(`(x - 0) / 1 = x`, also for `nan` and `±inf`). -/
theorem EF.div_sub_zero_one (x : EF) : EF.div (EF.sub x (EF.fin 0)) (EF.fin 1) = x := by
  cases x with
  | fin a => simp [EF.sub, EF.div]
  | pinf => simp [EF.sub, EF.div]
  | ninf => simp [EF.sub, EF.div]
  | nan => rfl

/-- C9.  `genefilter` with the `kOverA(2, 5.0)` predicate on the DataFrame
`[[1,6,7,2],[1,2,3,4]]` returns `[true, false]` aligned to row order, but the
same data presented as a NumPy 2-D array raises the `ValueError` (the
`case npt.NDArray` value pattern compares `type(data)` with a generic alias
and never matches), contradicting the claim that recognized NumPy arrays are
filtered and only unrecognized containers fail. -/
theorem C9_genefilter_ndarray :
    genefilter (GFData.dataframe [[(1 : ℚ), 6, 7, 2], [1, 2, 3, 4]]) (k_over_a 2 5)
      = Except.ok [true, false]
    ∧ genefilter (GFData.ndarray [[(1 : ℚ), 6, 7, 2], [1, 2, 3, 4]]) (k_over_a 2 5)
      = Except.error "Unsupported data type. Must be a Pandas DataFrame or a NumPy array." :=
  ⟨by rfl, rfl⟩

/-- C3.  Three studies in which gene 100 is expressed in two (proportion 2/3)
and highly confident in two (proportion 2/3), with `batchRatio = 0.5` and
`highBatchRatio = 0.5`: the claim says gene 100 must be marked
`expressed = 1` and `high = 1`, but the aggregation code tests
`gene in expression_df["entrez_gene_id"]`, which checks membership in the
filtered frame's positional *index* (a subset of `{0, 1, 2}`), never the gene
ids, so the boolean matrix stays all zero. -/
theorem C3_aggregation_ignores_proportions :
    (save_rnaseq_tests_boolean_matrix
        [([100], [100]), ([100], [100]), ([200], [])] [100, 200] (1 / 2) (1 / 2)).1.map
        (fun r => (r.label, r.entrez_gene_id, r.expressed, r.high))
      = [(0, some 100, some 0, some 0), (1, some 200, some 0, some 0)] := by
  norm_num [save_rnaseq_tests_boolean_matrix, value_counts, value_counts.ins, locSet,
    List.enum, List.enumFrom, List.count]

/-- C6.  On a study with one sample and two genes (counts 5 and 0) and any
filtering options, `cpm_filter` raises `TypeError` in its per-column loop
(`counts[:, i]` on a DataFrame) instead of updating the retained gene set:
no gene row is ever retained or dropped by the CPM cutoff. -/
theorem C6_cpm_filter_raises :
    cpm_filter
      [("s1",
        { study := "S1", num_samples := 1
          count_matrix := [("samp1", [EF.fin 5, EF.fin 0])]
          fragment_lengths := [EF.fin 0], sample_names := ["samp1"]
          layout := [LayoutMethod.single_end], entrez_gene_ids := [1, 2]
          gene_sizes := [EF.fin 1, EF.fin 1] })]
      { replicate_ratio := 1 / 2, batch_ratio := 1 / 2, cut_off := 1
        high_replicate_ratio := 1, high_batch_ratio := 9 / 10 }
      = Except.error "TypeError: unhashable type: slice" := by
  rfl

/-- A KDE pipeline that finds no peak on any column (used as a concrete
instantiation of the abstract density machinery). -/
noncomputable def kpNone : KDEPipeline :=
  { score := fun _ _ => [], find_peaks := fun _ _ _ => [] }

/-- The collection loop of `zfpkm_transform` neither fails nor depends on the
progress step as long as that step is nonzero: the step is only consulted by
the (short-circuited) logging test. -/
theorem ztExec_step_invariant (kp : KDEPipeline) (pp : ℚ × ℚ) (u u' : ℤ)
    (hu : u ≠ 0) (hu' : u' ≠ 0) :
    ∀ (l : List (String × List EF)) (i : ℕ) (rs : List (String × ZFPKMResult))
      (df : List (String × List EF)),
      ztExec kp pp u i l rs df = ztExec kp pp u' i l rs df ∧
      ∃ res, ztExec kp pp u i l rs df = Except.ok res := by
  intro l
  induction l with
  | nil => exact fun i rs df => ⟨rfl, _, rfl⟩
  | cons c rest ih =>
      intro i rs df
      simp only [ztExec]
      rw [if_neg (fun h => hu h.2), if_neg (fun h => hu' h.2)]
      exact ih _ _ _

/-- C10.  For every `update_every_percent > 1`, `zfpkm_transform` succeeds
(the value is divided by 100, made positive, so the progress step is never
zero and the `ZeroDivisionError` path is unreachable) and its result — the
z-matrix included — is identical to calling it with `update_every_percent/100`:
the percentage only drives logging. -/
theorem C10_update_percent (kp : KDEPipeline) (pp : ℚ × ℚ)
    (fpkm_df : List (String × List EF)) (p : ℚ) (hp : 1 < p) :
    zfpkm_transform kp fpkm_df pp p = zfpkm_transform kp fpkm_df pp (p / 100) ∧
    ∃ res, zfpkm_transform kp fpkm_df pp p = Except.ok res := by
  have hp0 : (0 : ℚ) < p := lt_trans one_pos hp
  have hq1 : (0 : ℚ) < p / 100 := by positivity
  have hq2 : (0 : ℚ) < (if 1 < p / 100 then p / 100 / 100 else p / 100) := by
    split <;> positivity
  unfold zfpkm_transform
  rw [if_pos hp]
  cases fpkm_df with
  | nil => exact ⟨rfl, _, rfl⟩
  | cons c rest =>
      have hlen : (0 : ℚ) < (((c :: rest).length : ℕ) : ℚ) := by
        have : (0 : ℕ) < (c :: rest).length := by simp
        exact_mod_cast this
      have h1 : ⌈(((c :: rest).length : ℕ) : ℚ) * (p / 100)⌉ ≠ 0 := by
        have : (0 : ℤ) < ⌈(((c :: rest).length : ℕ) : ℚ) * (p / 100)⌉ :=
          Int.ceil_pos.mpr (mul_pos hlen hq1)
        omega
      have h2 : ⌈(((c :: rest).length : ℕ) : ℚ) *
          (if 1 < p / 100 then p / 100 / 100 else p / 100)⌉ ≠ 0 := by
        have : (0 : ℤ) < ⌈(((c :: rest).length : ℕ) : ℚ) *
            (if 1 < p / 100 then p / 100 / 100 else p / 100)⌉ :=
          Int.ceil_pos.mpr (mul_pos hlen hq2)
        omega
      exact ⟨(ztExec_step_invariant kp pp _ _ h1 h2 _ _ _ _).1,
        (ztExec_step_invariant kp pp _ _ h1 h1 _ _ _ _).2⟩

/-- C10 witness: a concrete instance with `update_every_percent = 50`. -/
theorem C10_update_percent_witness :
    (1 : ℚ) < 50 ∧
      zfpkm_transform kpNone [("a", [EF.fin 1])] (2 / 100, 1) 50
        = zfpkm_transform kpNone [("a", [EF.fin 1])] (2 / 100, 1) (50 / 100) :=
  ⟨by norm_num, (C10_update_percent kpNone (2 / 100, 1) [("a", [EF.fin 1])] 50 (by norm_num)).1⟩

/-- C4.  Whenever the peak detector returns no peak for a column, the
per-sample calculation falls back to exactly `mu = 0`, `stdDev = 1` and
`maxDensity = 0`, and the resulting zfpkm series is exactly the
log2-transformed column (`(x - 0) / 1 = x`).  The calculation is a total
function, so every sample produces a result — no error path exists. -/
theorem C4_no_peak_fallback (kp : KDEPipeline) (pp : ℚ × ℚ) (col : String × List EF)
    (h : peaksOf kp pp col.2 = []) :
    (zfpkm_calculation kp pp col).mu = EF.fin 0 ∧
    (zfpkm_calculation kp pp col).std_dev = EF.fin 1 ∧
    (zfpkm_calculation kp pp col).max_fpkm = EF.fin 0 ∧
    (zfpkm_calculation kp pp col).zfpkm = colLog2 col.2 := by
  simp only [zfpkm_calculation, h]
  simp [EF.div_sub_zero_one]

/-- C4 witness: a pipeline that finds no peak, on the column `[3]`. -/
theorem C4_no_peak_fallback_witness :
    peaksOf kpNone (2 / 100, 1) [EF.fin 3] = [] ∧
    ((zfpkm_calculation kpNone (2 / 100, 1) ("a", [EF.fin 3])).mu = EF.fin 0 ∧
     (zfpkm_calculation kpNone (2 / 100, 1) ("a", [EF.fin 3])).std_dev = EF.fin 1 ∧
     (zfpkm_calculation kpNone (2 / 100, 1) ("a", [EF.fin 3])).max_fpkm = EF.fin 0 ∧
     (zfpkm_calculation kpNone (2 / 100, 1) ("a", [EF.fin 3])).zfpkm = colLog2 [EF.fin 3]) :=
  ⟨rfl, C4_no_peak_fallback kpNone (2 / 100, 1) ("a", [EF.fin 3]) rfl⟩

theorem npMean_nil : npMean [] = EF.nan := by
  simp [npMean, efSum, EF.div]

/-- C5 (amended).  When a peak is found but no log2 value strictly exceeds the
selected `mu`, the tail mean `u` is the NumPy mean of an empty selection,
which is `nan`, so `stdDev = (u - mu) * sqrt(pi/2)` is `nan` — not the no-peak
fallback value 1 — and the whole zfpkm series is `nan`. -/
theorem C5_stddev_nan (kp : KDEPipeline) (pp : ℚ × ℚ) (col : String × List EF)
    (hne : peaksOf kp pp col.2 ≠ [])
    (hmu : (colLog2 col.2).filter (fun x =>
        EF.ltB (npMax ((peaksOf kp pp col.2).map
          (fun i => (xRangeOf col.2).getD i EF.nan))) x) = []) :
    (zfpkm_calculation kp pp col).std_dev = EF.nan ∧
    ∀ z ∈ (zfpkm_calculation kp pp col).zfpkm, z = EF.nan := by
  have hlen : (peaksOf kp pp col.2).length ≠ 0 := by
    simpa [List.length_eq_zero] using hne
  simp only [zfpkm_calculation, if_pos hlen, hmu, npMean_nil, EF.sub_nan_left,
    EF.mul_nan_left]
  constructor
  · trivial
  · intro z hz
    rcases List.mem_map.mp hz with ⟨v, -, rfl⟩
    exact EF.div_nan_right _

/-- A KDE pipeline reporting one peak at grid index 0 (density value 1). -/
noncomputable def kpPeak : KDEPipeline :=
  { score := fun _ _ => [EF.fin 1], find_peaks := fun _ _ _ => [0] }

theorem getD_map_range {α : Type} (n i : ℕ) (h : i < n) (f : ℕ → α) (d : α) :
    (((List.range n).map f).getD i d) = f i := by
  rw [List.getD_eq_getElem?_getD]
  simp [List.getElem?_map, List.getElem?_range h]

theorem c5_peaks : peaksOf kpPeak (2 / 100, 1) [EF.fin 0] = [0] := rfl

theorem c5_colLog2 : colLog2 [EF.fin 0] = [EF.fin 0] := by
  simp [colLog2, EF.add, EF.log2, EF.nanToNum0, Real.logb_one]

theorem c5_mu :
    npMax ((peaksOf kpPeak (2 / 100, 1) [EF.fin 0]).map
      (fun i => (xRangeOf [EF.fin 0]).getD i EF.nan)) = EF.fin 0 := by
  rw [c5_peaks]
  have hx : (xRangeOf [EF.fin 0]).getD 0 EF.nan = EF.fin 0 := by
    rw [xRangeOf, c5_colLog2]
    show (efLinspace (npMin [EF.fin 0]) (npMax [EF.fin 0]) 1000).getD 0 EF.nan = EF.fin 0
    have h0 : npMin [EF.fin 0] = EF.fin 0 := rfl
    have h1 : npMax [EF.fin 0] = EF.fin 0 := rfl
    rw [efLinspace, h0, h1, getD_map_range 1000 0 (by norm_num)]
    norm_num [EF.add, EF.sub, EF.mul, EF.div]
  rw [List.map_cons, List.map_nil, hx]
  rfl

theorem c5_filter_empty :
    (colLog2 [EF.fin 0]).filter (fun x =>
        EF.ltB (npMax ((peaksOf kpPeak (2 / 100, 1) [EF.fin 0]).map
          (fun i => (xRangeOf [EF.fin 0]).getD i EF.nan))) x) = [] := by
  rw [c5_mu, c5_colLog2]
  simp [EF.ltB]

/-- C5 counterexample: a column (`[0]`) and a detected peak with `mu = 0`,
where no log2 value exceeds `mu`; the claim says `stdDev = 1`, but the
computed `stdDev` is `nan` (it equals `(nan - mu) * sqrt(pi/2)`). -/
theorem C5_stddev_one_counterexample :
    peaksOf kpPeak (2 / 100, 1) [EF.fin 0] ≠ [] ∧
    ((colLog2 [EF.fin 0]).filter (fun x =>
        EF.ltB (npMax ((peaksOf kpPeak (2 / 100, 1) [EF.fin 0]).map
          (fun i => (xRangeOf [EF.fin 0]).getD i EF.nan))) x) = []) ∧
    (zfpkm_calculation kpPeak (2 / 100, 1) ("a", [EF.fin 0])).std_dev ≠ EF.fin 1 := by
  refine ⟨by simp [c5_peaks], c5_filter_empty, ?_⟩
  have hlen : (peaksOf kpPeak (2 / 100, 1) [EF.fin 0]).length ≠ 0 := by
    simp [c5_peaks]
  simp only [zfpkm_calculation, if_pos hlen, c5_filter_empty, npMean_nil,
    EF.sub_nan_left, EF.mul_nan_left]
  simp

/-- C5 witness for the amended statement, at the same concrete input as the
counterexample. -/
theorem C5_stddev_nan_witness :
    peaksOf kpPeak (2 / 100, 1) [EF.fin 0] ≠ [] ∧
    ((colLog2 [EF.fin 0]).filter (fun x =>
        EF.ltB (npMax ((peaksOf kpPeak (2 / 100, 1) [EF.fin 0]).map
          (fun i => (xRangeOf [EF.fin 0]).getD i EF.nan))) x) = []) ∧
    (zfpkm_calculation kpPeak (2 / 100, 1) ("a", [EF.fin 0])).std_dev = EF.nan :=
  ⟨by simp [c5_peaks], c5_filter_empty,
    (C5_stddev_nan kpPeak (2 / 100, 1) ("a", [EF.fin 0]) (by simp [c5_peaks])
      c5_filter_empty).1⟩

theorem EF.add_fin (a b : ℝ) : EF.add (EF.fin a) (EF.fin b) = EF.fin (a + b) := rfl

theorem EF.sub_fin (a b : ℝ) : EF.sub (EF.fin a) (EF.fin b) = EF.fin (a - b) := rfl

theorem EF.exp_fin (a : ℝ) : EF.exp (EF.fin a) = EF.fin (Real.exp a) := rfl

theorem EF.log_fin_pos {a : ℝ} (h : 0 < a) : EF.log (EF.fin a) = EF.fin (Real.log a) := by
  simp [EF.log, h]

theorem efSum_map_fin_aux (l : List ℝ) (a : ℝ) :
    List.foldl EF.add (EF.fin a) (l.map EF.fin) = EF.fin (a + l.sum) := by
  induction l generalizing a with
  | nil => simp
  | cons x xs ih => simp [EF.add_fin, ih, add_assoc]

/-- The float sum of exact finite values is the exact sum. -/
theorem efSum_map_fin (l : List ℝ) : efSum (l.map EF.fin) = EF.fin l.sum := by
  simpa using efSum_map_fin_aux l 0

/-- On positive finite data, the `rate` vector of `tpm_column` is the exact
real vector `log(count + 1) - log(size)`. -/
theorem tpm_rate_eq : ∀ (cs ss : List ℝ), (∀ x ∈ cs, 0 < x) → (∀ x ∈ ss, 0 < x) →
    List.zipWith (fun v g => EF.sub (EF.log v) (EF.log g))
      ((cs.map EF.fin).map (fun c => EF.add c (EF.fin 1))) (ss.map EF.fin)
      = (List.zipWith (fun c s => Real.log (c + 1) - Real.log s) cs ss).map EF.fin
  | [], _, _, _ => by simp
  | _ :: _, [], _, _ => by simp
  | c :: cs, s :: ss, hcs, hss => by
      have hc : (0 : ℝ) < c + 1 := by
        have := hcs c (by simp); linarith
      have hs : (0 : ℝ) < s := hss s (by simp)
      simp only [List.map_cons, List.zipWith_cons_cons, EF.add_fin]
      rw [EF.log_fin_pos hc, EF.log_fin_pos hs]
      simp only [EF.sub_fin]
      exact congrArg (List.cons _)
        (tpm_rate_eq cs ss (fun x hx => hcs x (by simp [hx]))
          (fun x hx => hss x (by simp [hx])))

/-- Core of C8: on a nonempty all-positive count column with matching positive
gene sizes, the TPM column sums exactly to `1e6` (the float computation is
idealized over the reals, which is the "up to floating tolerance" reading). -/
theorem tpm_column_sum (cs ss : List ℝ) (hne : cs ≠ []) (hlen : cs.length = ss.length)
    (hcs : ∀ x ∈ cs, 0 < x) (hss : ∀ x ∈ ss, 0 < x) :
    efSum (tpm_column (cs.map EF.fin) (ss.map EF.fin)) = EF.fin 1000000 := by
  simp only [tpm_column]
  rw [tpm_rate_eq cs ss hcs hss]
  set r := List.zipWith (fun c s => Real.log (c + 1) - Real.log s) cs ss with hr
  have hrne : r ≠ [] := by
    cases cs with
    | nil => exact absurd rfl hne
    | cons c cs =>
        cases ss with
        | nil => simp at hlen
        | cons s ss => simp [hr]
  have hexp1 : (r.map EF.fin).map EF.exp = (r.map Real.exp).map EF.fin := by
    rw [List.map_map, List.map_map]
    rfl
  rw [hexp1, efSum_map_fin]
  set S := (r.map Real.exp).sum with hS
  have hSpos : 0 < S := by
    apply List.sum_pos
    · intro x hx
      rcases List.mem_map.mp hx with ⟨t, -, rfl⟩
      exact Real.exp_pos t
    · simpa using hrne
  rw [EF.log_fin_pos hSpos, EF.log_fin_pos (by norm_num : (0 : ℝ) < 1000000)]
  have hfun : ∀ t : ℝ,
      EF.exp (EF.add (EF.sub (EF.fin t) (EF.fin (Real.log S))) (EF.fin (Real.log 1000000)))
        = EF.fin (Real.exp t * (1000000 / S)) := by
    intro t
    rw [EF.sub_fin, EF.add_fin, EF.exp_fin, Real.exp_add, Real.exp_sub,
      Real.exp_log hSpos, Real.exp_log (by norm_num : (0 : ℝ) < 1000000)]
    ring_nf
  have hmap : (r.map EF.fin).map
      (fun t => EF.exp (EF.add (EF.sub t (EF.fin (Real.log S))) (EF.fin (Real.log 1000000))))
      = (r.map (fun t => Real.exp t * (1000000 / S))).map EF.fin := by
    simp only [List.map_map, Function.comp]
    exact List.map_congr_left (fun t _ => hfun t)
  rw [hmap, efSum_map_fin]
  congr 1
  have hsum : (r.map (fun t => Real.exp t * (1000000 / S))).sum = S * (1000000 / S) := by
    rw [← List.sum_map_mul_right]
  rw [hsum, mul_div_cancel₀ _ hSpos.ne']

/-- C8.  For a study whose count matrix has all-positive (finite) entries,
nonempty columns aligned with all-positive gene sizes, every column of the
TPM normalization matrix produced by `calculate_tpm` sums exactly to `1e6`
(real-number idealization of "1e6 up to floating tolerance"). -/
theorem C8_tpm_columns_sum (name : String) (m : StudyMetrics) (ss : List ℝ)
    (hsz : m.gene_sizes = ss.map EF.fin) (hss : ∀ x ∈ ss, 0 < x)
    (hcols : ∀ c ∈ m.count_matrix, ∃ cs : List ℝ,
      c.2 = cs.map EF.fin ∧ cs ≠ [] ∧ cs.length = ss.length ∧ ∀ x ∈ cs, 0 < x) :
    ∀ p ∈ calculate_tpm [(name, m)], ∀ c ∈ p.2.normalization_matrix,
      efSum c.2 = EF.fin 1000000 := by
  intro p hp c hc
  simp only [calculate_tpm, List.map_cons, List.map_nil, List.mem_singleton] at hp
  subst hp
  dsimp only at hc
  rcases List.mem_map.mp hc with ⟨c0, hc0, rfl⟩
  rcases hcols c0 hc0 with ⟨cs, h1, h2, h3, h4⟩
  dsimp only
  rw [h1, hsz]
  exact tpm_column_sum cs ss h2 h3 h4 hss

/-- C8 witness: the 1×1 count matrix `[[1]]` with gene size 1. -/
theorem C8_tpm_columns_sum_witness :
    efSum (tpm_column [EF.fin 1] [EF.fin 1]) = EF.fin 1000000 := by
  have h := C8_tpm_columns_sum "s"
    { study := "S", num_samples := 1, count_matrix := [("a", [EF.fin 1])]
      fragment_lengths := [EF.fin 0], sample_names := ["a"]
      layout := [LayoutMethod.single_end], entrez_gene_ids := [1]
      gene_sizes := [EF.fin 1] } [1] rfl (by norm_num)
    (by
      intro c hc
      simp only [List.mem_singleton] at hc
      subst hc
      exact ⟨[1], rfl, by simp, by simp, by norm_num⟩)
  exact h _ (List.mem_singleton_self _) ("a", tpm_column [EF.fin 1] [EF.fin 1])
    (List.mem_singleton_self _)

/-- The C7 study: one single-end sample with count 2 and gene size -1, whose
RPKM is `exp(nan - ...) = nan` (`log` of a negative size is `nan`). -/
noncomputable def mC7 : StudyMetrics :=
  { study := "S1", num_samples := 1
    count_matrix := [("a", [EF.fin 2])]
    fragment_lengths := [EF.fin 0], sample_names := ["a"]
    layout := [LayoutMethod.single_end], entrez_gene_ids := [1]
    gene_sizes := [EF.fin (-1)] }

/-- C7.  The claimed NaN-row dropping does not happen: on a study whose only
FPKM/RPKM row is NaN, the stored normalization matrix still consists of that
NaN row (`df[~pd.isna(df)]` is an elementwise mask that keeps the shape and
leaves NaN cells NaN), so the matrix is not free of NaN rows and its row count
is unchanged (1, not 0). -/
theorem C7_fpkm_nan_row_not_dropped :
    (calculate_fpkm [("s1", mC7)]).map (fun p => (p.1, p.2.normalization_matrix))
      = [("s1", [("a", [EF.nan])])]
    ∧ matNumRows [("a", [EF.nan])] = 1 := by
  constructor
  · norm_num [calculate_fpkm, fpkm_sample_column, mC7, EF.add, EF.sub, EF.log,
      EF.exp, EF.isNan, efSum, List.range_succ]
  · rfl

/-- The C1 study (UMI path): one sample, two genes with counts 0 and 5; the
all-zero first row is dropped from the working matrix before the transform. -/
noncomputable def mC1 : StudyMetrics :=
  { study := "S1", num_samples := 1
    count_matrix := [("a", [EF.fin 0, EF.fin 5])]
    fragment_lengths := [EF.fin 0], sample_names := ["a"]
    layout := [LayoutMethod.single_end], entrez_gene_ids := [1, 2]
    gene_sizes := [EF.fin 1, EF.fin 1] }

/-- The C1 filtering options: replicate ratios 1, zFPKM cutoff -3. -/
def foC1 : FilteringOptions :=
  { replicate_ratio := 1, batch_ratio := 1 / 2, cut_off := -3
    high_replicate_ratio := 1, high_batch_ratio := 1 / 2 }

theorem EF.le_def (a b : EF) : (a ≤ b) = (EF.leB a b = true) := rfl

/-- C1.  After the zFPKM/UMI filtering stage the alignment invariant is
broken: on the study `mC1` the filter updates `entrezGeneIds` to `[1]` (the
mask computed on the zero-row-reduced matrix is zipped against the unreduced
gene-id list and truncates) while `countMatrix` keeps its 2 rows, so
`len(entrezGeneIds) = 1 ≠ 2 = countMatrix.rowCount` — and the surviving id 1
labels the all-zero row that the mask decision never looked at. -/
theorem C1_zfpkm_alignment_broken :
    (zfpkm_filter kpNone [("s1", mC1)] foC1 false).map
      (fun ms => ms.map (fun p => (p.2.entrez_gene_ids, matNumRows p.2.count_matrix)))
      = Except.ok [([1], 2)]
    ∧ ([(1 : ℤ)] : List ℤ).length ≠ 2 := by
  have h1 : ((-3 : ℝ)) ≤ Real.logb 2 6 :=
    le_trans (by norm_num) (Real.logb_nonneg (by norm_num) (by norm_num))
  constructor
  · norm_num [zfpkm_filter, mC1, foC1, zfpkm_transform, ztExec, zfpkm_calculation,
      peaksOf, densityOf, xRangeOf, kpNone, colLog2, EF.add, EF.sub, EF.log2,
      EF.nanToNum0, EF.eqB, EF.ltB, EF.leB, EF.div_sub_zero_one, rowSums, matRows,
      matNumRows, efSum, maskFilter, upsertResult, dfSetCol, List.range_succ,
      k_over_a, genefilter, zipFilter, pyRound, List.countP, List.countP.go, h1,
      Int.floor_one, List.mapM_cons, List.mapM_nil, List.mapM.loop, Except.bind,
      Except.map, Except.pure, Except.instMonad, EF.div, Int.fract_one,
      Function.comp, EF.le_def]
  · decide

/-- The TPM column of the C2 study: counts `[0, 9]` with unit gene sizes give
`rate = [log 1, log 10]`, `sum(exp rate) = 11`, hence TPM `[1e6/11, 1e7/11]`. -/
theorem c2_tpm_column :
    tpm_column [EF.fin 0, EF.fin 9] [EF.fin 1, EF.fin 1]
      = [EF.fin (1000000 / 11), EF.fin (10000000 / 11)] := by
  norm_num [tpm_column, EF.add, EF.sub, EF.log, EF.exp, efSum, Real.log_one,
    Real.exp_zero, Real.exp_sub, Real.exp_add, Real.exp_neg, Real.exp_log]

/-- The C2 study: one sample, two genes with counts 0 and 9, unit sizes. -/
noncomputable def mC2 : StudyMetrics :=
  { study := "S1", num_samples := 1
    count_matrix := [("a", [EF.fin 0, EF.fin 9])]
    fragment_lengths := [EF.fin 0], sample_names := ["a"]
    layout := [LayoutMethod.single_end], entrez_gene_ids := [1, 2]
    gene_sizes := [EF.fin 1, EF.fin 1] }

/-- The C2 filtering options: replicate ratios 1, percentile cutoff 50. -/
def foC2 : FilteringOptions :=
  { replicate_ratio := 1, batch_ratio := 1 / 2, cut_off := 50
    high_replicate_ratio := 1, high_batch_ratio := 1 / 2 }

/-- C2.  After the TPM-quantile stage on study `mC2`, only gene 2 passes the
median cutoff, so `entrezGeneIds` becomes `[2]`; but line 615 zips the
original id list against the gene-id list `keep_top_genes` (testing the
truthiness of the ids, not booleans), so `highConfidenceEntrezGeneIds`
becomes `[1]` — which is not a subset of `[2]`. -/
theorem C2_tpm_highconf_not_subset :
    (tpm_quantile_filter [("s1", mC2)] foC2).map
      (fun ms => ms.map (fun p =>
        (p.2.entrez_gene_ids, p.2.high_confidence_entrez_gene_ids)))
      = Except.ok [([2], [1])]
    ∧ (1 : ℤ) ∈ ([1] : List ℤ) ∧ (1 : ℤ) ∉ ([2] : List ℤ) := by
  refine ⟨?_, by decide, by decide⟩
  norm_num [tpm_quantile_filter, calculate_tpm, calculate_z_score, mC2, foC2,
    c2_tpm_column, npQuantile, sortAsc, insertAsc, dfRows, maskFilter, zipFilter,
    pyTruthy, pyRound, k_over_a, genefilter, EF.ltB, EF.leB, EF.le_def, EF.isNan,
    EF.add, EF.sub, EF.mul, List.mapM_cons, List.mapM_nil, List.mapM.loop,
    Except.bind, Except.map, Except.pure, Except.instMonad, Int.fract_one,
    Function.comp, List.countP, List.countP.go, List.range_succ, matRows,
    matNumRows, matFromRows]
